import Mathlib

/-!
Verification of the Uptime monitor core against its specification.

The definitions below are a shallow embedding of the Python sources:
`uptime_monitor.py` (probe classification, status tracking, maintenance
scheduling), `alert_manager.py` (alert gating and channel dispatch) and
`database_manager.py` (the SQLite-backed result store).  Wall-clock
instants are modelled as integer microsecond counts; a calendar date is
the integer index of its day, so the instant starting day `d` is
`d * usPerDay`.  Effectful code is modelled by returning an explicit list
of the effects it performs, and Python exceptions by an `Option String`
component carrying the raised message, `none` meaning a normal return.
-/

namespace Uptime

/-! ### Probe classification (`UptimeMonitor.ping_url`, uptime_monitor.py lines 58-99) -/

/-- A completed HTTP exchange: `response.status_code` and
`response.elapsed.total_seconds()` (modelled in microseconds). -/
structure HttpResponse where
  status_code : Nat
  elapsed : Nat
deriving DecidableEq

/-- What the transport layer did for one `requests.get` call: either a
response came back, or a `RequestException` with message `e` was raised. -/
inductive TransportOutcome where
  | ok (response : HttpResponse)
  | exn (message : String)
deriving DecidableEq

/-- The dictionary returned by `ping_url` (its `timestamp` key, pure
bookkeeping of the start instant, is omitted). -/
structure ProbeResult where
  is_up : Bool
  response_time : Option Nat
  status_code : Option Nat
  error_message : Option String
deriving DecidableEq

/-- The try/except classification inside `ping_url`: a response yields
`is_up = (status_code == 200)` with both transport fields set, a
`RequestException` yields a down result carrying only the message. -/
def classifyPing : TransportOutcome → ProbeResult
  | .ok r =>
      { is_up := r.status_code == 200
        response_time := some r.elapsed
        status_code := some r.status_code
        error_message := none }
  | .exn e =>
      { is_up := false
        response_time := none
        status_code := none
        error_message := some e }

/-! ### Status tracker (`UptimeMonitor.__init__` / `_handle_status_change`,
uptime_monitor.py lines 19-27 and 101-121) -/

/-- The mutable monitor state touched by `_handle_status_change`. -/
structure MonitorState where
  consecutive_failures : Nat
  last_status : Option Bool
deriving DecidableEq

/-- `__init__`: `consecutive_failures = 0`, `last_status = None`. -/
def initState : MonitorState :=
  { consecutive_failures := 0, last_status := none }

/-- One probe outcome as seen by `_handle_status_change`. -/
structure Outcome where
  is_up : Bool
  error_message : Option String
deriving DecidableEq

/-- The argument tuple of one `AlertManager.send_alert` call. -/
structure AlertIntent where
  url : String
  is_failure : Bool
  consecutive_failures : Nat
  error_message : Option String
deriving DecidableEq

/-- `_handle_status_change`: on success, a recovery alert intent is issued
only when `consecutive_failures > 0` (with the Python defaults
`consecutive_failures=0`, `error_message=None`), then the counter resets;
on failure the counter increments and a failure alert intent carrying the
new count is always issued.  Returns the new state and the issued
`send_alert` calls in order. -/
def handle_status_change (url : String) (s : MonitorState) (o : Outcome) :
    MonitorState × List AlertIntent :=
  if o.is_up then
    ({ consecutive_failures := 0, last_status := some true },
     if 0 < s.consecutive_failures then
       [{ url := url, is_failure := false, consecutive_failures := 0, error_message := none }]
     else [])
  else
    ({ consecutive_failures := s.consecutive_failures + 1, last_status := some false },
     [{ url := url, is_failure := true,
        consecutive_failures := s.consecutive_failures + 1,
        error_message := o.error_message }])

/-- Feeding a sequence of probe outcomes to `_handle_status_change`,
collecting every issued `send_alert` call. -/
def runHandler (url : String) (s : MonitorState) : List Outcome → MonitorState × List AlertIntent
  | [] => (s, [])
  | o :: rest =>
      let step := handle_status_change url s o
      let further := runHandler url step.1 rest
      (further.1, step.2 ++ further.2)

/-- The recovery (non-failure) intents among a run's issued alerts. -/
def recoveryIntents (l : List AlertIntent) : List AlertIntent :=
  l.filter (fun i => !i.is_failure)

/-- Specification-side count of failure-to-success edges in an outcome
sequence, given whether the (virtual) previous outcome was a failure. -/
def downUpEdgesFrom (downPrev : Bool) : List Outcome → Nat
  | [] => 0
  | o :: rest => (if downPrev && o.is_up then 1 else 0) + downUpEdgesFrom (!o.is_up) rest

/-- Specification-side count of failure-to-success edges: positions holding
a success whose predecessor in the sequence was a failure. -/
def downUpEdges (os : List Outcome) : Nat :=
  downUpEdgesFrom false os

theorem recoveryIntents_runHandler (url : String) (os : List Outcome) (s : MonitorState) :
    (recoveryIntents (runHandler url s os).2).length
      = downUpEdgesFrom (decide (0 < s.consecutive_failures)) os := by
  induction os generalizing s with
  | nil => simp [runHandler, recoveryIntents, downUpEdgesFrom]
  | cons o rest ih =>
      by_cases h : o.is_up = true
      · have hr := ih ⟨0, some true⟩
        rw [show decide ((0 : Nat) < 0) = false from by simp] at hr
        by_cases hc : 0 < s.consecutive_failures
        · simp only [recoveryIntents] at hr ⊢
          simp [runHandler, handle_status_change, h, hc, downUpEdgesFrom] at hr ⊢
          omega
        · simp only [recoveryIntents] at hr ⊢
          simp [runHandler, handle_status_change, h, hc, downUpEdgesFrom] at hr ⊢
          omega
      · simp only [Bool.not_eq_true] at h
        have hr := ih ⟨s.consecutive_failures + 1, some false⟩
        rw [show decide (0 < s.consecutive_failures + 1) = true from by simp] at hr
        simp only [recoveryIntents] at hr ⊢
        simp [runHandler, handle_status_change, h, downUpEdgesFrom] at hr ⊢
        omega

/-- Claim C1: in the probe result built by `ping_url`, a completed
transport gives `is_up` true exactly for status 200 with both
`response_time` and `status_code` present and no `error_message`; a failed
transport gives `is_up` false with only `error_message` present.  Hence a
down result carries exactly one of `error_message`, `status_code`. -/
theorem ping_classification (o : TransportOutcome) :
    (∀ r, o = .ok r →
      (classifyPing o).is_up = (r.status_code == 200) ∧
      (classifyPing o).response_time = some r.elapsed ∧
      (classifyPing o).status_code = some r.status_code ∧
      (classifyPing o).error_message = none) ∧
    (∀ e, o = .exn e →
      (classifyPing o).is_up = false ∧
      (classifyPing o).response_time = none ∧
      (classifyPing o).status_code = none ∧
      (classifyPing o).error_message = some e) ∧
    ((classifyPing o).is_up = false →
      (classifyPing o).error_message.isSome = !(classifyPing o).status_code.isSome) := by
  cases o with
  | ok r =>
      refine ⟨?_, ?_, ?_⟩
      · rintro r' rfl'
        cases rfl'
        simp [classifyPing]
      · rintro e h
        cases h
      · intro h
        simp [classifyPing]
  | exn e =>
      refine ⟨?_, ?_, ?_⟩
      · rintro r h
        cases h
      · rintro e' h
        cases h
        simp [classifyPing]
      · intro h
        simp [classifyPing]

theorem ping_classification_witness :
    (classifyPing (.ok ⟨404, 123⟩)).is_up = (404 == 200) ∧
    (classifyPing (.exn "timeout")).error_message = some "timeout" := by
  refine ⟨((ping_classification (.ok ⟨404, 123⟩)).1 ⟨404, 123⟩ rfl).1, ?_⟩
  exact (((ping_classification (.exn "timeout")).2.1 "timeout" rfl)).2.2.2

/-- Claim C2: `consecutive_failures` starts at 0, each failure handled by
`_handle_status_change` increments it by exactly 1, any success resets it
to exactly 0 (so it stays 0 across runs of successes), and as a natural
number it is never negative. -/
theorem consecutive_failures_counter (url : String) (s : MonitorState) (o : Outcome) :
    initState.consecutive_failures = 0 ∧
    (handle_status_change url s o).1.consecutive_failures
      = (if o.is_up then 0 else s.consecutive_failures + 1) ∧
    0 ≤ (handle_status_change url s o).1.consecutive_failures := by
  refine ⟨rfl, ?_, Nat.zero_le _⟩
  by_cases h : o.is_up = true
  · simp [handle_status_change, h]
  · simp only [Bool.not_eq_true] at h
    simp [handle_status_change, h]

/-- Claim C4: over any sequence of probe outcomes starting from the freshly
constructed state, the number of recovery alert intents issued equals the
number of failure-to-success edges in the sequence — exactly one per
failure streak, none on a success following a success, and none on the
very first probe. -/
theorem recovery_once_per_streak (url : String) (os : List Outcome) :
    (recoveryIntents (runHandler url initState os).2).length = downUpEdges os := by
  have h := recoveryIntents_runHandler url os initState
  simpa [initState, downUpEdges] using h

/-! ### Alert manager (`AlertManager`, alert_manager.py) -/

/-- The `MonitorConfig` dataclass (monitor_config.py).  Optional fields
default to `None` in the source and are modelled with `Option`. -/
structure MonitorConfig where
  url : String
  check_interval : Nat
  timeout : Nat
  db_path : String
  days_to_keep : Nat
  smtp_server : Option String
  smtp_port : Nat
  smtp_username : Option String
  smtp_password : Option String
  alert_recipients : Option (List String)
  slack_webhook_url : Option String
  alert_on_failure : Bool
  alert_on_recovery : Bool
  consecutive_failures_threshold : Nat
deriving DecidableEq

/-- Python truthiness of an optional string (`None` and `""` are falsy). -/
def optStrTruthy : Option String → Bool
  | none => false
  | some s => !s.isEmpty

/-- Python truthiness of an optional list (`None` and `[]` are falsy). -/
def optListTruthy : Option (List String) → Bool
  | none => false
  | some l => !l.isEmpty

/-- The guard `if self.config.smtp_server and self.config.alert_recipients`
in `send_alert` (alert_manager.py line 55). -/
def emailChannelConfigured (cfg : MonitorConfig) : Bool :=
  optStrTruthy cfg.smtp_server && optListTruthy cfg.alert_recipients

/-- The guard `if self.config.slack_webhook_url` (alert_manager.py line 59). -/
def slackChannelConfigured (cfg : MonitorConfig) : Bool :=
  optStrTruthy cfg.slack_webhook_url

/-- The `all([...])` completeness check inside `_send_email_alert`
(alert_manager.py lines 100-107). -/
def emailConfigComplete (cfg : MonitorConfig) : Bool :=
  optStrTruthy cfg.smtp_server && optStrTruthy cfg.smtp_username &&
    optStrTruthy cfg.smtp_password && optListTruthy cfg.alert_recipients

/-- `_create_alert_message`: the rendered `(subject, message)` pair.  The
wall-clock timestamp line and the emoji are omitted from the model; the
parts that vary with the intent are kept. -/
def create_alert_message (url : String) ( is_failure : Bool)
    (consecutive_failures : Nat) (error_message : Option String) : String × String :=
  if is_failure then
    ("SITE DOWN: " ++ url,
     "ALERT: Website is DOWN URL: " ++ url ++ " Consecutive Failures: "
       ++ toString consecutive_failures
       ++ match error_message with
          | some e => " Error: " ++ e
          | none => "")
  else
    ("SITE RECOVERED: " ++ url,
     "RECOVERY: Website is back UP URL: " ++ url
       ++ " The site has recovered from previous failures.")

/-- One observable event of an `AlertManager` call: log lines and the
hand-off of a rendered alert to a channel transport. -/
inductive AlertEvent where
  | emailSkippedUnavailable
  | emailSkippedIncomplete
  | emailSendAttempt (subject : String) (message : String)
  | emailSent
  | emailError (message : String)
  | slackSendAttempt (message : String) ( is_failure : Bool)
  | slackSent
  | slackError (message : String)
deriving DecidableEq

/-- The behaviour of the process environment during one `send_alert` call:
whether the e-mail stack is importable (`EMAIL_AVAILABLE`) and the
exception, if any, that each channel's try-block body raises. -/
structure SendEnv where
  emailAvailable : Bool
  emailBodyExn : Option String
  slackBodyExn : Option String
deriving DecidableEq

/-- A run of a block of Python code: the events it emits, and the
exception it raises to its caller (`none` = normal return). -/
abbrev BlockRun := List AlertEvent × Option String

/-- `try body except Exception as e: handler(e)` — events of the body are
kept, a raised exception is replaced by the handler's events and never
escapes. -/
def tryExcept (body : BlockRun) (handler : String → List AlertEvent) : BlockRun :=
  match body.2 with
  | none => (body.1, none)
  | some e => (body.1 ++ handler e, none)

/-- `a; b` — `b` runs only when `a` returned normally. -/
def seqRun (a b : BlockRun) : BlockRun :=
  match a.2 with
  | none => (a.1 ++ b.1, b.2)
  | some e => (a.1, some e)

/-- The try-block body of `_send_email_alert`: it hands the alert to the
e-mail transport and may raise (import failure, executor failure, ...). -/
def email_alert_body (env : SendEnv) (subject message : String) : BlockRun :=
  match env.emailBodyExn with
  | none => ([.emailSendAttempt subject message, .emailSent], none)
  | some e => ([.emailSendAttempt subject message], some e)

/-- `_send_email_alert` (alert_manager.py lines 92-131): skip when the
e-mail stack is unavailable or the configuration is incomplete, otherwise
run the body under a catch-all `except` that logs and returns. -/
def send_email_alert (cfg : MonitorConfig) (env : SendEnv)
    (subject message : String) : BlockRun :=
  if !env.emailAvailable then ([.emailSkippedUnavailable], none)
  else if !emailConfigComplete cfg then ([.emailSkippedIncomplete], none)
  else tryExcept (email_alert_body env subject message) (fun e => [.emailError e])

/-- The try-block body of `_send_slack_alert`: it hands the alert to the
webhook transport and may raise. -/
def slack_alert_body (env : SendEnv) (message : String) ( is_failure : Bool) : BlockRun :=
  match env.slackBodyExn with
  | none => ([.slackSendAttempt message is_failure, .slackSent], none)
  | some e => ([.slackSendAttempt message is_failure], some e)

/-- `_send_slack_alert` (alert_manager.py lines 148-173): the body runs
under a catch-all `except` that logs and returns. -/
def send_slack_alert (env : SendEnv) (message : String) ( is_failure : Bool) : BlockRun :=
  tryExcept (slack_alert_body env message is_failure) (fun e => [.slackError e])

/-- `send_alert` (alert_manager.py lines 30-60): the three gating early
returns, then message rendering, then the e-mail channel (if configured)
followed by the Slack channel (if configured). -/
def send_alert (cfg : MonitorConfig) (env : SendEnv) (url : String)
    ( is_failure : Bool) (consecutive_failures : Nat)
    (error_message : Option String) : BlockRun :=
  if is_failure && !cfg.alert_on_failure then ([], none)
  else if !is_failure && !cfg.alert_on_recovery then ([], none)
  else if is_failure && decide (consecutive_failures < cfg.consecutive_failures_threshold)
  then ([], none)
  else
    let sm := create_alert_message url is_failure consecutive_failures error_message
    seqRun
      (if emailChannelConfigured cfg then send_email_alert cfg env sm.1 sm.2
       else ([], none))
      (if slackChannelConfigured cfg then send_slack_alert env sm.2 is_failure
       else ([], none))

/-- Whether an event is the hand-off of an alert to a channel transport. -/
def isChannelAttempt : AlertEvent → Bool
  | .emailSendAttempt _ _ => true
  | .slackSendAttempt _ _ => true
  | _ => false

/-- Whether a `send_alert` call reached at least one channel transport. -/
def attemptsAnyChannel (r : BlockRun) : Bool :=
  r.1.any isChannelAttempt

theorem send_alert_subthreshold (cfg : MonitorConfig) (env : SendEnv) (url : String)
    (cf : Nat) (em : Option String) (h : cf < cfg.consecutive_failures_threshold) :
    send_alert cfg env url true cf em = ([], none) := by
  by_cases haf : cfg.alert_on_failure
  · simp [send_alert, haf, h]
  · simp [send_alert, haf]

theorem send_email_alert_no_raise (cfg : MonitorConfig) (env : SendEnv)
    (subject message : String) : (send_email_alert cfg env subject message).2 = none := by
  unfold send_email_alert tryExcept email_alert_body
  cases env.emailBodyExn <;> by_cases h1 : env.emailAvailable <;>
    by_cases h2 : emailConfigComplete cfg <;> simp [h1, h2]

theorem send_slack_alert_no_raise (env : SendEnv) (message : String) (b : Bool) :
    (send_slack_alert env message b).2 = none := by
  unfold send_slack_alert tryExcept slack_alert_body
  cases env.slackBodyExn <;> simp

theorem slack_attempt_mem (env : SendEnv) (message : String) (b : Bool) :
    AlertEvent.slackSendAttempt message b ∈ (send_slack_alert env message b).1 := by
  unfold send_slack_alert tryExcept slack_alert_body
  cases env.slackBodyExn <;> simp

theorem email_attempt_mem (cfg : MonitorConfig) (env : SendEnv)
    (subject message : String) (ha : env.emailAvailable = true)
    (hc : emailConfigComplete cfg = true) :
    AlertEvent.emailSendAttempt subject message
      ∈ (send_email_alert cfg env subject message).1 := by
  unfold send_email_alert tryExcept email_alert_body
  cases env.emailBodyExn <;> simp [ha, hc]

/-- In the non-gated branch, `send_alert` is the sequencing of the two
(optional) channel sends; the e-mail half never raises, so the events are
simply the two halves concatenated and the whole call returns normally. -/
theorem send_alert_dispatch (cfg : MonitorConfig) (env : SendEnv) (url : String)
    (b : Bool) (cf : Nat) (em : Option String)
    (hf : b = true → cfg.alert_on_failure = true ∧ cfg.consecutive_failures_threshold ≤ cf)
    (hr : b = false → cfg.alert_on_recovery = true) :
    send_alert cfg env url b cf em =
      ((if emailChannelConfigured cfg then
          send_email_alert cfg env (create_alert_message url b cf em).1
            (create_alert_message url b cf em).2
        else ([], none)).1 ++
       (if slackChannelConfigured cfg then
          send_slack_alert env (create_alert_message url b cf em).2 b
        else ([], none)).1,
       (if slackChannelConfigured cfg then
          send_slack_alert env (create_alert_message url b cf em).2 b
        else ([], none)).2) := by
  have hml : (if emailChannelConfigured cfg then
      send_email_alert cfg env (create_alert_message url b cf em).1
        (create_alert_message url b cf em).2
    else (([], none) : BlockRun)).2 = none := by
    by_cases hec : emailChannelConfigured cfg = true
    · simp [hec, send_email_alert_no_raise]
    · simp [hec]
  have hseq : ∀ a b : BlockRun, a.2 = none → seqRun a b = (a.1 ++ b.1, b.2) := by
    intro a b h
    unfold seqRun
    rw [h]
  cases b with
  | false =>
      have hra := hr rfl
      unfold send_alert
      rw [if_neg (by simp), if_neg (by simp [hra]), if_neg (by simp)]
      exact hseq _ _ hml
  | true =>
      obtain ⟨haf, hth⟩ := hf rfl
      unfold send_alert
      rw [if_neg (by simp [haf]), if_neg (by simp), if_neg (by simp [Nat.not_lt, hth])]
      exact hseq _ _ hml

theorem seqRun_no_raise (a b : BlockRun) (ha : a.2 = none) (hb : b.2 = none) :
    (seqRun a b).2 = none := by
  unfold seqRun
  rw [ha]
  exact hb

theorem send_alert_no_raise (cfg : MonitorConfig) (env : SendEnv) (url : String)
    (b : Bool) (cf : Nat) (em : Option String) :
    (send_alert cfg env url b cf em).2 = none := by
  unfold send_alert
  split
  · rfl
  · split
    · rfl
    · split
      · rfl
      · refine seqRun_no_raise _ _ ?_ ?_
        · by_cases hec : emailChannelConfigured cfg = true
          · simp [hec, send_email_alert_no_raise]
          · simp [hec]
        · by_cases hsc : slackChannelConfigured cfg = true
          · simp [hsc, send_slack_alert_no_raise]
          · simp [hsc]

theorem emailComplete_configured (cfg : MonitorConfig)
    (h : emailConfigComplete cfg = true) : emailChannelConfigured cfg = true := by
  unfold emailConfigComplete at h
  unfold emailChannelConfigured
  simp only [Bool.and_eq_true] at h ⊢
  exact ⟨h.1.1.1, h.2⟩

theorem send_alert_attempts_slack (cfg : MonitorConfig) (env : SendEnv) (url : String)
    (b : Bool) (cf : Nat) (em : Option String)
    (hs : slackChannelConfigured cfg = true)
    (hf : b = true → cfg.alert_on_failure = true ∧ cfg.consecutive_failures_threshold ≤ cf)
    (hr : b = false → cfg.alert_on_recovery = true) :
    attemptsAnyChannel (send_alert cfg env url b cf em) = true := by
  rw [send_alert_dispatch cfg env url b cf em hf hr]
  rw [attemptsAnyChannel, List.any_eq_true]
  refine ⟨AlertEvent.slackSendAttempt (create_alert_message url b cf em).2 b, ?_, rfl⟩
  refine List.mem_append.mpr (Or.inr ?_)
  rw [if_pos hs]
  exact slack_attempt_mem env _ b

/-- Claim C3: with `alert_on_failure` enabled and a channel configured, a
failure intent reaches the channel transports exactly when the carried
`consecutive_failures` count has reached the threshold — for every such
count, not only the first crossing — and a sub-threshold failure intent is
dropped before anything at all happens. -/
theorem failure_gate_monotone (cfg : MonitorConfig) (env : SendEnv) (url : String)
    (cf : Nat) (em : Option String)
    (hf : cfg.alert_on_failure = true) (hs : slackChannelConfigured cfg = true) :
    (attemptsAnyChannel (send_alert cfg env url true cf em) = true ↔
      cfg.consecutive_failures_threshold ≤ cf) ∧
    (cf < cfg.consecutive_failures_threshold →
      send_alert cfg env url true cf em = ([], none)) := by
  refine ⟨⟨?_, ?_⟩, fun h => send_alert_subthreshold cfg env url cf em h⟩
  · intro hat
    by_contra hlt
    rw [Nat.not_le] at hlt
    rw [send_alert_subthreshold cfg env url cf em hlt] at hat
    simp [attemptsAnyChannel] at hat
  · intro hth
    exact send_alert_attempts_slack cfg env url true cf em hs (fun _ => ⟨hf, hth⟩) (by simp)

/-- A configuration with only the Slack channel set up, threshold 3. -/
def sampleCfg : MonitorConfig :=
  { url := "https://example.com", check_interval := 300, timeout := 10,
    db_path := "uptime_monitor.db", days_to_keep := 30,
    smtp_server := none, smtp_port := 587, smtp_username := none,
    smtp_password := none, alert_recipients := none,
    slack_webhook_url := some "https://hooks.example/slack",
    alert_on_failure := true, alert_on_recovery := true,
    consecutive_failures_threshold := 3 }

/-- An environment in which both channel transports work. -/
def sampleEnv : SendEnv :=
  { emailAvailable := true, emailBodyExn := none, slackBodyExn := none }

theorem failure_gate_monotone_witness :
    attemptsAnyChannel (send_alert sampleCfg sampleEnv "u" true 3 none) = true ∧
    attemptsAnyChannel (send_alert sampleCfg sampleEnv "u" true 4 none) = true ∧
    send_alert sampleCfg sampleEnv "u" true 2 none = ([], none) := by
  refine ⟨?_, ?_, ?_⟩
  · exact (failure_gate_monotone sampleCfg sampleEnv "u" 3 none rfl rfl).1.mpr (by decide)
  · exact (failure_gate_monotone sampleCfg sampleEnv "u" 4 none rfl rfl).1.mpr (by decide)
  · exact (failure_gate_monotone sampleCfg sampleEnv "u" 2 none rfl rfl).2 (by decide)

/-- Claim C6: a `send_alert` call never raises to its caller, whatever the
environment does; and when the e-mail configuration is complete, the
e-mail stack available and the Slack webhook configured, a call that
passes gating hands the same rendered alert to both channel transports —
in particular the e-mail attempt happens even in environments where the
Slack body raises, and vice versa. -/
theorem notify_never_raises (cfg : MonitorConfig) (env : SendEnv) (url : String)
    (b : Bool) (cf : Nat) (em : Option String) :
    (send_alert cfg env url b cf em).2 = none ∧
    (emailConfigComplete cfg = true → env.emailAvailable = true →
     slackChannelConfigured cfg = true →
     (b = true → cfg.alert_on_failure = true ∧ cfg.consecutive_failures_threshold ≤ cf) →
     (b = false → cfg.alert_on_recovery = true) →
     AlertEvent.emailSendAttempt (create_alert_message url b cf em).1
         (create_alert_message url b cf em).2 ∈ (send_alert cfg env url b cf em).1 ∧
     AlertEvent.slackSendAttempt (create_alert_message url b cf em).2 b
         ∈ (send_alert cfg env url b cf em).1) := by
  refine ⟨send_alert_no_raise cfg env url b cf em, ?_⟩
  intro hcomp hav hs hf hr
  rw [send_alert_dispatch cfg env url b cf em hf hr]
  constructor
  · refine List.mem_append.mpr (Or.inl ?_)
    rw [if_pos (emailComplete_configured cfg hcomp)]
    exact email_attempt_mem cfg env _ _ hav hcomp
  · refine List.mem_append.mpr (Or.inr ?_)
    rw [if_pos hs]
    exact slack_attempt_mem env _ b

/-- A configuration with both channels fully set up, threshold 3. -/
def bothCfg : MonitorConfig :=
  { sampleCfg with
    smtp_server := some "smtp.example.com",
    smtp_username := some "monitor",
    smtp_password := some "secret",
    alert_recipients := some ["ops@example.com"] }

/-- An environment in which both channel transport bodies raise. -/
def failingEnv : SendEnv :=
  { emailAvailable := true, emailBodyExn := some "smtp down",
    slackBodyExn := some "webhook down" }

theorem notify_never_raises_witness :
    (send_alert bothCfg failingEnv "u" false 0 none).2 = none ∧
    AlertEvent.emailSendAttempt (create_alert_message "u" false 0 none).1
        (create_alert_message "u" false 0 none).2
      ∈ (send_alert bothCfg failingEnv "u" false 0 none).1 ∧
    AlertEvent.slackSendAttempt (create_alert_message "u" false 0 none).2 false
      ∈ (send_alert bothCfg failingEnv "u" false 0 none).1 := by
  have h := notify_never_raises bothCfg failingEnv "u" false 0 none
  exact ⟨h.1, h.2 (by decide) rfl rfl (by simp) (fun _ => rfl)⟩

/-! ### Composition: status tracker feeding the alert gate (C9) -/

/-- The failure alert intents issued along a streak of `k` handled
failures entered with counter value `base`. -/
def failIntents (url : String) (em : Option String) (base : Nat) : Nat → List AlertIntent
  | 0 => []
  | Nat.succ n => ⟨url, true, base + 1, em⟩ :: failIntents url em (base + 1) n

theorem runHandler_failStreak_success (url : String) (em : Option String) (k : Nat)
    (s : MonitorState) :
    runHandler url s (List.replicate k ⟨false, em⟩ ++ [⟨true, none⟩]) =
      (⟨0, some true⟩,
       failIntents url em s.consecutive_failures k ++
         (if 0 < s.consecutive_failures + k then
           [⟨url, false, 0, none⟩] else [])) := by
  induction k generalizing s with
  | zero =>
      by_cases hc : 0 < s.consecutive_failures
      · simp [runHandler, handle_status_change, failIntents, hc]
      · simp [runHandler, handle_status_change, failIntents, hc]
  | succ n ih =>
      rw [List.replicate_succ, List.cons_append]
      have hstep : handle_status_change url s ⟨false, em⟩ =
          ({ consecutive_failures := s.consecutive_failures + 1, last_status := some false },
           [⟨url, true, s.consecutive_failures + 1, em⟩]) := by
        simp [handle_status_change]
      rw [runHandler]
      rw [hstep]
      rw [ih ⟨s.consecutive_failures + 1, some false⟩]
      simp [failIntents, Nat.add_assoc, Nat.add_comm 1 n]

theorem failIntents_all_dropped (cfg : MonitorConfig) (env : SendEnv) (url : String)
    (em : Option String) : ∀ (k base : Nat),
    base + k < cfg.consecutive_failures_threshold →
    (failIntents url em base k).filter
      (fun i => attemptsAnyChannel
        (send_alert cfg env i.url i.is_failure i.consecutive_failures i.error_message)) = [] := by
  intro k
  induction k with
  | zero => intro base _; rfl
  | succ n ih =>
      intro base h
      rw [failIntents, List.filter_cons]
      have hdrop : attemptsAnyChannel (send_alert cfg env url true (base + 1) em) = false := by
        rw [send_alert_subthreshold cfg env url (base + 1) em (by omega)]
        rfl
      simp only [hdrop, Bool.false_eq_true, if_false]
      exact ih (base + 1) (by omega)

/-- The intents of a run of probe outcomes that `send_alert` actually
forwards to at least one channel transport. -/
def alertsDispatched (cfg : MonitorConfig) (env : SendEnv) (os : List Outcome) :
    List AlertIntent :=
  (runHandler cfg.url initState os).2.filter
    (fun i => attemptsAnyChannel
      (send_alert cfg env i.url i.is_failure i.consecutive_failures i.error_message))

/-- Claim C9: the threshold gate applies only to failure intents.  For a
failure streak shorter than the threshold followed by a success, with
recovery alerts enabled and the Slack channel configured, the run
dispatches exactly the recovery alert — every failure in the streak was
dropped sub-threshold, yet the recovery goes out. -/
theorem recovery_without_failure_alert (cfg : MonitorConfig) (env : SendEnv)
    (em : Option String) (k : Nat)
    (hr : cfg.alert_on_recovery = true) (hs : slackChannelConfigured cfg = true)
    (h1 : 1 ≤ k) (hk : k < cfg.consecutive_failures_threshold) :
    alertsDispatched cfg env (List.replicate k ⟨false, em⟩ ++ [⟨true, none⟩]) =
      [⟨cfg.url, false, 0, none⟩] := by
  unfold alertsDispatched
  rw [runHandler_failStreak_success]
  have hinit : initState.consecutive_failures = 0 := rfl
  rw [hinit]
  rw [if_pos (by omega)]
  rw [List.filter_append]
  rw [failIntents_all_dropped cfg env cfg.url em k 0 (by omega)]
  rw [List.nil_append, List.filter_cons]
  have hrec : attemptsAnyChannel (send_alert cfg env cfg.url false 0 none) = true :=
    send_alert_attempts_slack cfg env cfg.url false 0 none hs (by simp) (fun _ => hr)
  simp only [hrec, if_true, List.filter_nil]

theorem recovery_without_failure_alert_witness :
    alertsDispatched sampleCfg sampleEnv
        (List.replicate 2 ⟨false, some "e"⟩ ++ [⟨true, none⟩]) =
      [⟨sampleCfg.url, false, 0, none⟩] := by
  exact recovery_without_failure_alert sampleCfg sampleEnv (some "e") 2 rfl rfl
    (by decide) (by decide)

/-! ### Result store (`DatabaseManager`, database_manager.py)

The `uptime_checks` table is modelled as a list of rows; instants are
integer microsecond counts and `timedelta(days=n)` is `n * usPerDay`.
SQL `ORDER BY` is modelled by sorting the filtered rows. -/

/-- Microseconds per day: the resolution of Python `datetime`, so
`datetime.combine(d, time.max)` is the last representable instant of day
`d`, one microsecond before the next day starts. -/
def usPerDay : Int := 86400000000

/-- One row of the `uptime_checks` table. -/
structure DbRow where
  id : Nat
  timestamp : Int
  url : String
  is_up : Bool
  response_time : Option Nat
  status_code : Option Nat
  error_message : Option String
deriving DecidableEq

/-- What one `cleanup_old_data` call does: the table it leaves behind, the
`cursor.rowcount` it writes to the log, and the value the Python function
returns to its caller (its signature is `-> None` and it has no `return`
statement). -/
structure CleanupOutcome where
  table : List DbRow
  loggedCount : Nat
  ret : Option Nat
deriving DecidableEq

/-- `cleanup_old_data` (database_manager.py lines 98-111):
`DELETE FROM uptime_checks WHERE timestamp < now - timedelta(days=days_to_keep)`,
then log the deleted-row count; no value is returned. -/
def cleanup_old_data (days_to_keep : Nat) (now : Int) (table : List DbRow) :
    CleanupOutcome :=
  let cutoff := now - days_to_keep * usPerDay
  { table := table.filter (fun r => !decide (r.timestamp < cutoff))
    loggedCount := (table.filter (fun r => decide (r.timestamp < cutoff))).length
    ret := none }

/-- `datetime.combine(target_date, time.min)` for day number `d`. -/
def startOfDay (d : Int) : Int := d * usPerDay

/-- `datetime.combine(target_date, time.max)` for day number `d`. -/
def endOfDay (d : Int) : Int := d * usPerDay + (usPerDay - 1)

/-- Ascending timestamp order on rows (`ORDER BY timestamp`). -/
def tsLe (a b : DbRow) : Prop := a.timestamp ≤ b.timestamp

/-- Descending timestamp order on rows (`ORDER BY timestamp DESC`). -/
def tsGe (a b : DbRow) : Prop := b.timestamp ≤ a.timestamp

instance : DecidableRel tsLe := fun a b => Int.decLe a.timestamp b.timestamp

instance : DecidableRel tsGe := fun a b => Int.decLe b.timestamp a.timestamp

instance : IsTotal DbRow tsLe := ⟨fun a b => Int.le_total a.timestamp b.timestamp⟩

instance : IsTotal DbRow tsGe := ⟨fun a b => Int.le_total b.timestamp a.timestamp⟩

instance : IsTrans DbRow tsLe := ⟨fun _ _ _ h1 h2 => le_trans h1 h2⟩

instance : IsTrans DbRow tsGe := ⟨fun _ _ _ h1 h2 => le_trans h2 h1⟩

/-- `get_checks_for_date` (database_manager.py lines 62-80):
`WHERE url = ? AND timestamp BETWEEN ? AND ? ORDER BY timestamp`, the
bounds being the first and last instants of the target day, both
inclusive. -/
def get_checks_for_date (url : String) (target_date : Int) (table : List DbRow) :
    List DbRow :=
  List.insertionSort tsLe
    (table.filter fun r =>
      r.url == url && decide (startOfDay target_date ≤ r.timestamp)
        && decide (r.timestamp ≤ endOfDay target_date))

/-- `get_recent_checks` (database_manager.py lines 82-96):
`WHERE url = ? ORDER BY timestamp DESC LIMIT ?`. -/
def get_recent_checks (url : String) (limit : Nat) (table : List DbRow) :
    List DbRow :=
  (List.insertionSort tsGe (table.filter fun r => r.url == url)).take limit

/-- Claim C5 as stated is false: `cleanup_old_data` deletes the eligible
rows and logs their count, but it returns `None`, not the count.  At a
table holding one eligible row the deleted count is 1 while the returned
value is `None`. -/
theorem cleanup_returns_no_count :
    (cleanup_old_data 1 (10 * usPerDay) [⟨1, 0, "u", true, some 100, some 200, none⟩]).loggedCount = 1 ∧
    (cleanup_old_data 1 (10 * usPerDay) [⟨1, 0, "u", true, some 100, some 200, none⟩]).table = [] ∧
    (cleanup_old_data 1 (10 * usPerDay) [⟨1, 0, "u", true, some 100, some 200, none⟩]).ret ≠ some 1 := by
  refine ⟨?_, ?_, ?_⟩ <;> decide

/-- Claim C5 (amended): pruning deletes exactly the rows strictly older
than `now` minus `days_to_keep` days, leaves every other row unchanged and
in order, and logs (rather than returns) the count of deleted rows; when
no row is eligible the table is untouched and the logged count is zero.
The call itself returns `None`. -/
theorem cleanup_old_data_spec (days_to_keep : Nat) (now : Int) (table : List DbRow) :
    (∀ r, r ∈ (cleanup_old_data days_to_keep now table).table ↔
      r ∈ table ∧ ¬(r.timestamp < now - days_to_keep * usPerDay)) ∧
    (cleanup_old_data days_to_keep now table).table.Sublist table ∧
    (cleanup_old_data days_to_keep now table).loggedCount
        + (cleanup_old_data days_to_keep now table).table.length = table.length ∧
    (cleanup_old_data days_to_keep now table).ret = none ∧
    ((∀ r ∈ table, ¬(r.timestamp < now - days_to_keep * usPerDay)) →
      (cleanup_old_data days_to_keep now table).table = table ∧
      (cleanup_old_data days_to_keep now table).loggedCount = 0) := by
  refine ⟨?_, ?_, ?_, rfl, ?_⟩
  · intro r
    simp [cleanup_old_data, List.mem_filter]
  · exact List.filter_sublist table
  · show (List.filter _ table).length + (List.filter _ table).length = table.length
    exact (List.length_eq_length_filter_add
      (fun r : DbRow => decide (r.timestamp < now - days_to_keep * usPerDay))).symm
  · intro h
    constructor
    · show List.filter _ table = table
      rw [List.filter_eq_self]
      intro r hr
      simpa using h r hr
    · show (List.filter _ table).length = 0
      rw [List.length_eq_zero, List.filter_eq_nil_iff]
      intro r hr
      simpa using h r hr

theorem cleanup_old_data_spec_witness :
    (cleanup_old_data 7 (20 * usPerDay) [⟨1, 15 * usPerDay, "u", true, some 100, some 200, none⟩]).table
        = [⟨1, 15 * usPerDay, "u", true, some 100, some 200, none⟩] ∧
    (cleanup_old_data 7 (20 * usPerDay) [⟨1, 15 * usPerDay, "u", true, some 100, some 200, none⟩]).loggedCount = 0 := by
  exact (cleanup_old_data_spec 7 (20 * usPerDay)
    [⟨1, 15 * usPerDay, "u", true, some 100, some 200, none⟩]).2.2.2.2 (by decide)

/-- Claim C10: the date query returns exactly the stored rows for the
given url whose timestamp lies between the first and the last instant of
the target day, both inclusive, in ascending timestamp order; the recency
query returns rows in descending timestamp order. -/
theorem date_query_spec (url : String) (d : Int) (lim : Nat) (table : List DbRow)
    (r : DbRow) :
    (r ∈ get_checks_for_date url d table ↔
      r ∈ table ∧ r.url = url ∧ startOfDay d ≤ r.timestamp ∧ r.timestamp ≤ endOfDay d) ∧
    (get_checks_for_date url d table).Sorted tsLe ∧
    (get_recent_checks url lim table).Sorted tsGe := by
  refine ⟨?_, ?_, ?_⟩
  · rw [get_checks_for_date, List.mem_insertionSort, List.mem_filter]
    simp [and_assoc]
  · exact List.sorted_insertionSort tsLe _
  · exact (List.sorted_insertionSort tsGe _).sublist (List.take_sublist _ _)

theorem date_query_spec_witness :
    ⟨2, 5, "u", true, some 1, some 200, none⟩
      ∈ get_checks_for_date "u" 0
        [⟨1, -1, "u", true, some 1, some 200, none⟩,
         ⟨2, 5, "u", true, some 1, some 200, none⟩,
         ⟨3, 7, "v", true, some 1, some 200, none⟩] := by
  exact (date_query_spec "u" 0 10 _ _).1.mpr (by decide)

/-! ### The effects of one `ping_url` call (C7) -/

/-- One side effect performed by `UptimeMonitor.ping_url`. -/
inductive PingEffect where
  | httpGet (url : String) (timeout : Nat)
  | logWarning (message : String)
  | dbSaveCheckResult (url : String) ( is_up : Bool) (response_time : Option Nat)
      (status_code : Option Nat) (error_message : Option String)
  | handleStatusChange ( is_up : Bool) (error_message : Option String)
  | logResult (url : String) ( is_up : Bool)
deriving DecidableEq

/-- `ping_url` (uptime_monitor.py lines 58-99) as an effect trace: the GET
request, the warning log on a transport error, then — still inside
`ping_url` — the `save_check_result` store write, the
`_handle_status_change` call driving alerting, and the result log line;
finally the classified result is returned. -/
def ping_url (cfg : MonitorConfig) (t : TransportOutcome) :
    List PingEffect × ProbeResult :=
  let r := classifyPing t
  ([PingEffect.httpGet cfg.url cfg.timeout] ++
    (match t with
     | .ok _ => []
     | .exn e => [PingEffect.logWarning e]) ++
    [PingEffect.dbSaveCheckResult cfg.url r.is_up r.response_time r.status_code
       r.error_message,
     PingEffect.handleStatusChange r.is_up r.error_message,
     PingEffect.logResult cfg.url r.is_up], r)

/-- Claim C7 as stated is false: `ping_url` does not stop at the network
call — at a concrete successful probe its own effect trace contains the
result-store write and the alert-handling call. -/
theorem ping_url_has_side_effects :
    PingEffect.dbSaveCheckResult sampleCfg.url true (some 123) (some 200) none
        ∈ (ping_url sampleCfg (.ok ⟨200, 123⟩)).1 ∧
    PingEffect.handleStatusChange true none ∈ (ping_url sampleCfg (.ok ⟨200, 123⟩)).1 := by
  decide

/-- Claim C7 (amended): for every probe, `ping_url` itself — not its
caller — performs the store write of the classified result and the
status-change/alert-handling call, in addition to the network call, and
returns the classified result. -/
theorem ping_url_persists_and_alerts (cfg : MonitorConfig) (t : TransportOutcome) :
    PingEffect.dbSaveCheckResult cfg.url (classifyPing t).is_up
        (classifyPing t).response_time (classifyPing t).status_code
        (classifyPing t).error_message ∈ (ping_url cfg t).1 ∧
    PingEffect.handleStatusChange (classifyPing t).is_up (classifyPing t).error_message
        ∈ (ping_url cfg t).1 ∧
    (ping_url cfg t).2 = classifyPing t := by
  refine ⟨?_, ?_, rfl⟩ <;> cases t <;> simp [ping_url]

/-! ### Maintenance loop (`UptimeMonitor.scheduled_tasks`,
uptime_monitor.py lines 265-286) -/

/-- The local wall-clock reading (`datetime.now()`) at one maintenance
tick: calendar day number, hour, minute, and Python `weekday()`
(Monday = 0 ... Sunday = 6). -/
structure LocalTime where
  date : Int
  hour : Nat
  minute : Nat
  weekday : Nat
deriving DecidableEq

/-- A maintenance task run by one tick of `scheduled_tasks`. -/
inductive MaintAction where
  | generateDailyReport (target_date : Int)
  | cleanupOldData (days_to_keep : Nat)
deriving DecidableEq

/-- The fixed `asyncio.sleep(300)` between maintenance ticks. -/
def maintenanceTickSeconds : Nat := 300

/-- The body of one `while self.running` iteration of `scheduled_tasks`:
`now.hour == 0 and now.minute <= 5` triggers the report for yesterday,
`now.weekday() == 6 and now.hour == 2 and now.minute <= 5` triggers the
retention cleanup. -/
def scheduled_tick (days_to_keep : Nat) (now : LocalTime) : List MaintAction :=
  (if now.hour = 0 ∧ now.minute ≤ 5 then
    [MaintAction.generateDailyReport (now.date - 1)]
   else []) ++
  (if now.weekday = 6 ∧ now.hour = 2 ∧ now.minute ≤ 5 then
    [MaintAction.cleanupOldData days_to_keep]
   else [])

/-- The maintenance loop over the wall-clock readings of its successive
ticks, recording what each tick ran. -/
def scheduled_tasks (days_to_keep : Nat) (ticks : List LocalTime) :
    List (LocalTime × List MaintAction) :=
  ticks.map (fun t => (t, scheduled_tick days_to_keep t))

/-- Claim C8: on every maintenance tick (the loop sleeps a fixed 300
seconds between ticks), the report for the previous calendar day is
generated iff the tick's local time has hour 0 and minute at most 5 (the
first five minutes past midnight, boundary inclusive), and retention
pruning for `days_to_keep` runs iff it is a Sunday with hour 2 and minute
at most 5. -/
theorem maintenance_triggers (days_to_keep : Nat) (ticks : List LocalTime)
    (t : LocalTime) (acts : List MaintAction)
    (h : (t, acts) ∈ scheduled_tasks days_to_keep ticks) :
    (MaintAction.generateDailyReport (t.date - 1) ∈ acts ↔
      t.hour = 0 ∧ t.minute ≤ 5) ∧
    (MaintAction.cleanupOldData days_to_keep ∈ acts ↔
      t.weekday = 6 ∧ t.hour = 2 ∧ t.minute ≤ 5) ∧
    maintenanceTickSeconds = 300 := by
  obtain ⟨t', ht', heq⟩ := List.mem_map.mp h
  injection heq with h1 h2
  subst h1
  subst h2
  unfold scheduled_tick
  refine ⟨?_, ?_, rfl⟩
  · by_cases hr : t'.hour = 0 ∧ t'.minute ≤ 5 <;>
      by_cases hc : t'.weekday = 6 ∧ t'.hour = 2 ∧ t'.minute ≤ 5 <;>
      simp [hr, hc]
  · by_cases hr : t'.hour = 0 ∧ t'.minute ≤ 5 <;>
      by_cases hc : t'.weekday = 6 ∧ t'.hour = 2 ∧ t'.minute ≤ 5 <;>
      simp [hr, hc]

theorem maintenance_triggers_witness :
    MaintAction.generateDailyReport ((100 : Int) - 1)
        ∈ scheduled_tick 30 ⟨100, 0, 3, 2⟩ ∧
    MaintAction.cleanupOldData 30 ∈ scheduled_tick 30 ⟨100, 2, 4, 6⟩ := by
  constructor
  · exact (maintenance_triggers 30 [⟨100, 0, 3, 2⟩] ⟨100, 0, 3, 2⟩
      (scheduled_tick 30 ⟨100, 0, 3, 2⟩) (by simp [scheduled_tasks])).1.mpr (by decide)
  · exact (maintenance_triggers 30 [⟨100, 2, 4, 6⟩] ⟨100, 2, 4, 6⟩
      (scheduled_tick 30 ⟨100, 2, 4, 6⟩) (by simp [scheduled_tasks])).2.1.mpr (by decide)

end Uptime
